import Mathlib

/-!
Shallow embedding of the country-identity reconciliation and verification
pipeline of the beneficial-ownership registry map scripts
(`countries_with_open_BO_registries.py`, `map_plotting_functions.py`,
`countries_with_open_registries_html.py`, and the scraped-openness script).

Python/pandas idioms are modelled explicitly:
* a pandas scalar cell is `Cell` (NaN, a number, or a string);
* `series.fillna`, `series.apply` become per-cell functions (every column
  operation in the sources is row-wise);
* `DataFrame.merge(..., how="left")` becomes `leftMerge`, the standard
  one-to-many left outer join: each left row is repeated once per matching
  right row, and appears once with an absent right side when nothing matches;
* code that raises becomes `Except String`, absence is `Option`;
* the external `pycountry` registry is a lookup-function parameter.
-/

/-! ## Python string primitives (ASCII fragment used by the scripts) -/

/-- ASCII whitespace recognised by `str.strip` (space, tab, newline, CR). -/
def isSpaceChar (c : Char) : Bool :=
  c.toNat == 32 || c.toNat == 9 || c.toNat == 10 || c.toNat == 13

/-- `str.strip` on the character list: drop whitespace from both ends. -/
def pyStripL (l : List Char) : List Char :=
  ((l.dropWhile isSpaceChar).reverse.dropWhile isSpaceChar).reverse

/-- Python `str.strip()`. -/
def pyStrip (s : String) : String := ⟨pyStripL s.toList⟩

/-- ASCII lowercase test (`c` in `a`..`z`). -/
def pyIsLower (c : Char) : Bool := 97 ≤ c.toNat && c.toNat ≤ 122

/-- ASCII uppercase of one character, as `str.upper` acts on ASCII. -/
def pyUpperChar (c : Char) : Char :=
  if 97 ≤ c.toNat && c.toNat ≤ 122 then Char.ofNat (c.toNat - 32) else c

/-- ASCII lowercase of one character, as `str.lower` acts on ASCII. -/
def pyLowerChar (c : Char) : Char :=
  if 65 ≤ c.toNat && c.toNat ≤ 90 then Char.ofNat (c.toNat + 32) else c

/-- Python `str.upper()` (ASCII fragment; the scripts apply it to ISO codes). -/
def pyUpper (s : String) : String := ⟨s.toList.map pyUpperChar⟩

/-- Python `str.lower()` (ASCII fragment). -/
def pyLower (s : String) : String := ⟨s.toList.map pyLowerChar⟩

/-- Auxiliary for the Python `in` substring test: does `needle` occur as a
contiguous run inside `hay`? -/
def subSeq (needle : List Char) : List Char → Bool
  | [] => needle.isEmpty
  | c :: cs => List.isPrefixOf needle (c :: cs) || subSeq needle cs

/-- Python `needle in hay` on strings. -/
def pyIn (needle hay : String) : Bool := subSeq needle.toList hay.toList

/-! ## Pandas scalar cells -/

/-- One pandas cell: missing (NaN), a number, or a string.  Numbers in the
source data are years and scores; they are integral, so `Int` suffices
(`str(int(x))` in the sources also goes through `Int`). -/
inductive Cell where
  | nan
  | num (n : Int)
  | str (s : String)
deriving DecidableEq, Repr

/-- `series.fillna(d)` on one cell. -/
def Cell.fillna (c : Cell) (d : Cell) : Cell :=
  match c with
  | .nan => d
  | c => c

/-- `pd.notna` on one cell. -/
def Cell.notna : Cell → Bool
  | .nan => false
  | _ => true

/-- Python `str(cell)` (`str(float("nan")) = "nan"`).  Integral numbers are
printed through `Int`; the scripts only stringify cells for the
`"public" in str(access).lower()` test, which no numeric rendering affects. -/
def pyStrOfCell : Cell → String
  | .nan => "nan"
  | .num n => toString n
  | .str s => s

/-! ## get_color (countries_with_open_BO_registries.py lines 14-24 and
countries_with_open_registries_html.py lines 12-15) -/

/-- `DEFAULT_COLOR = '#dc3545'` — red for missing countries. -/
def DEFAULT_COLOR : String := "#dc3545"

/-- `COLOR_MAP = {'public': '#28a745', 'closed': '#ff7f0e'}`. -/
def COLOR_MAP : List (String × String) :=
  [("public", "#28a745"), ("closed", "#ff7f0e")]

/-- `get_color` of `countries_with_open_BO_registries.py`:
`COLOR_MAP.get('public' if 'public' in str(access).lower() else 'closed', DEFAULT_COLOR)`. -/
def get_color (access : Cell) : String :=
  (COLOR_MAP.lookup
    (if pyIn "public" (pyLower (pyStrOfCell access)) then "public" else "closed")).getD
    DEFAULT_COLOR

/-- `get_color` of `countries_with_open_registries_html.py`: an explicit
two-branch conditional over the same test. -/
def get_color_html (access : Cell) : String :=
  if pyIn "public" (pyLower (pyStrOfCell access)) then "#28a745" else "#ff7f0e"

/-! ## Tolerance buckets (map_plotting_functions.py lines 11-16, 82-94) -/

/-- `SHAPEFILE_RESOLUTION_BY_COUNTRY_SIZE`, in dict insertion order.  The
`float('inf')` key is modelled as `none` (a threshold every area is below). -/
def SHAPEFILE_RESOLUTION_BY_COUNTRY_SIZE : List (Option ℚ × ℚ) :=
  [(some 1000, 1/1000), (some 10000, 5/1000), (some 100000, 5/100), (none, 1/10)]

/-- `area_km2 < threshold`, with `none` standing for `float('inf')`. -/
def belowThreshold (area : ℚ) : Option ℚ → Bool
  | none => true
  | some t => area < t

/-- The `for threshold, tolerance in ...items(): if area_km2 < threshold:
return tolerance` loop; `none` when the loop finishes without returning. -/
def firstBucket (area : ℚ) : List (Option ℚ × ℚ) → Option ℚ
  | [] => none
  | (t, tol) :: rest => if belowThreshold area t then some tol else firstBucket area rest

/-- `assign_tolerance` of `map_plotting_functions.py`. -/
def assign_tolerance (area : ℚ) : Option ℚ :=
  firstBucket area SHAPEFILE_RESOLUTION_BY_COUNTRY_SIZE

/-- Modelled from the spec wording of the bucket table, for comparison with
`assign_tolerance`: "0.001 if area < 1,000 km², else 0.005 if area < 10,000,
else 0.05 if area < 100,000, else 0.1". -/
def spec_bucket_tolerance (area : ℚ) : ℚ :=
  if area < 1000 then 1/1000
  else if area < 10000 then 5/1000
  else if area < 100000 then 5/100
  else 1/10

/-- Helper: the dict-iteration loop agrees with the spec's nested conditional
on every area, and in particular always returns a value. -/
theorem assign_tolerance_eq_spec (area : ℚ) :
    assign_tolerance area = some (spec_bucket_tolerance area) := by
  simp only [assign_tolerance, SHAPEFILE_RESOLUTION_BY_COUNTRY_SIZE, firstBucket,
    belowThreshold, spec_bucket_tolerance]
  split_ifs <;> simp_all

/-! ## Claim C6 -/

/-- C6: `assign_tolerance(area)` checks the bucket table's exclusive upper
bounds in ascending order and returns the first satisfied bucket's tolerance:
0.001 below 1,000 km², else 0.005 below 10,000, else 0.05 below 100,000,
else 0.1. -/
theorem C6_assign_tolerance_bucket_table (area : ℚ) :
    assign_tolerance area = some (spec_bucket_tolerance area) :=
  assign_tolerance_eq_spec area

/-! ## Claim C7 -/

/-- C7: `assign_tolerance` is monotonic non-decreasing: a larger area gets the
same or a coarser (larger) tolerance under the fixed bucket table. -/
theorem C7_assign_tolerance_monotone (a1 a2 : ℚ) (hle : a1 ≤ a2)
    (t1 t2 : ℚ) (h1 : assign_tolerance a1 = some t1)
    (h2 : assign_tolerance a2 = some t2) : t1 ≤ t2 := by
  rw [assign_tolerance_eq_spec] at h1 h2
  obtain rfl : t1 = spec_bucket_tolerance a1 := by simpa using h1.symm
  obtain rfl : t2 = spec_bucket_tolerance a2 := by simpa using h2.symm
  simp only [spec_bucket_tolerance]
  split_ifs <;> try norm_num
  all_goals linarith

/-- Witness for C7 at areas 500 and 50,000 km²: tolerances 0.001 and 0.05. -/
theorem C7_assign_tolerance_monotone_witness :
    ((500 : ℚ) ≤ 50000) ∧ ((1 : ℚ)/1000 ≤ 5/100) :=
  ⟨by norm_num,
   C7_assign_tolerance_monotone 500 50000 (by norm_num) (1/1000) (5/100)
     (by rw [assign_tolerance_eq_spec]; norm_num [spec_bucket_tolerance])
     (by rw [assign_tolerance_eq_spec]; norm_num [spec_bucket_tolerance])⟩

/-! ## Claim C10 -/

/-- C10: `get_color` returns the green `#28a745` exactly when the lowercased
string form of the input contains `public`, and the orange `#ff7f0e`
otherwise; the `DEFAULT_COLOR` fallback of the dictionary lookup is
unreachable, so `get_color` never yields the missing-country red; the
duplicate definition in the html-variant script agrees. -/
theorem C10_get_color_two_colors (v : Cell) :
    (get_color v = "#28a745" ↔ pyIn "public" (pyLower (pyStrOfCell v)) = true) ∧
    (get_color v = "#28a745" ∨ get_color v = "#ff7f0e") ∧
    get_color v ≠ DEFAULT_COLOR ∧
    get_color_html v = get_color v := by
  by_cases h : pyIn "public" (pyLower (pyStrOfCell v)) = true <;>
    simp [get_color, get_color_html, COLOR_MAP, DEFAULT_COLOR, h, List.lookup]

/-! ## ISO resolver (map_plotting_functions.py lines 25-78 and
countries_with_open_BO_registries.py lines 26-34) -/

/-- The `manual_mappings` override table of `get_iso_code`, verbatim. -/
def manual_mappings : List (String × String) :=
  [("Russia", "RUS"),
   ("Bolivia", "BOL"),
   ("Vietnam", "VNM"),
   ("Tanzania", "TZA"),
   ("Moldova", "MDA"),
   ("Syria", "SYR"),
   ("Laos", "LAO"),
   ("Venezuela", "VEN"),
   ("Iran", "IRN"),
   ("Egypt", "EGY"),
   ("Bahamas, The", "BHS"),
   ("Congo, Dem. Rep.", "COD"),
   ("Congo, Rep.", "COG"),
   ("Egypt, Arab Rep.", "EGY"),
   ("French Guiana", "FRA"),
   ("Gambia, The", "GMB"),
   ("Guadeloupe", "FRA"),
   ("Hong Kong Sar", "HKG"),
   ("Iran, Islamic Rep.", "IRN"),
   ("Korea, Rep.", "KOR"),
   ("Kosovo", "XKX"),
   ("Lao Pdr", "LAO"),
   ("Macedonia, Fyr", "MKD"),
   ("Martinique", "FRA"),
   ("Mayotte", "FRA"),
   ("Micronesia, Fed. Sts.", "FSM"),
   ("Réunion", "FRA"),
   ("South Sudan", "SSD"),
   ("St. Kitts and Nevis", "KNA"),
   ("St. Lucia", "LCA"),
   ("St. Vincent and the Grenadines", "VCT"),
   ("Swaziland", "SWZ"),
   ("São Tomé and Príncipe", "STP"),
   ("Turkey", "TUR"),
   ("Venezuela, Rb", "VEN"),
   ("West Bank and Gaza", "PSE"),
   ("Yemen, Rep.", "YEM")]

/-- `get_iso_code` of `map_plotting_functions.py`.  The external
`pycountry.countries.lookup` is a parameter; it raises `LookupError`
(`Except.error ()`) on failure, which the function catches, falling back to
the override table and returning `none` (never raising) when that also
fails. -/
def get_iso_code (canonical : String → Except Unit String)
    (country_name : String) : Except String (Option String) :=
  match canonical country_name with
  | .ok alpha3 => .ok (some alpha3)
  | .error _ => .ok (manual_mappings.lookup country_name)

/-- The error text raised by `convert_iso2_to_iso3` (`\x27` is the ASCII
apostrophe of the Python f-string). -/
def convert_iso2_not_found_msg (iso2_code : String) : String :=
  "Country with ISO2 code \x27" ++ iso2_code ++ "\x27 not found."

/-- `convert_iso2_to_iso3` of `countries_with_open_BO_registries.py`.  The
external `pycountry.countries.get(alpha_2=...)` is the parameter `alpha2`
(returning `none` when the code is unknown).  NaN input is passed through;
a failed lookup makes `country.alpha_3` raise `AttributeError`, which the
function catches and re-raises as `Exception(...)`; a non-string number makes
`iso2_code.upper()` raise `AttributeError`, caught and re-raised the same
way. -/
def convert_iso2_to_iso3 (alpha2 : String → Option String)
    (iso2_code : Cell) : Except String Cell :=
  match iso2_code with
  | .nan => .ok .nan
  | .num n => .error (convert_iso2_not_found_msg (toString n))
  | .str s =>
    match alpha2 (pyUpper s) with
    | some alpha3 => .ok (.str alpha3)
    | none => .error (convert_iso2_not_found_msg s)

/-- A concrete fragment of the external `pycountry` alpha-2 registry, enough
to evaluate `convert_iso2_to_iso3` on concrete inputs.  `ZZ` is a
user-assigned ISO 3166-1 element and is absent from the registry. -/
def pycountry_alpha2_sample : String → Option String := fun code =>
  List.lookup code
    [("GB", "GBR"), ("FR", "FRA"), ("US", "USA"), ("DE", "DEU"), ("ES", "ESP")]

/-! ## Claim C4 (corrected) -/

/-- C4 counterexample: resolving the ISO2 code `ZZ`, unknown to the canonical
registry, makes `convert_iso2_to_iso3` raise rather than return an absent
value — so ISO resolution of codes can abort the run. -/
theorem C4_counterexample_convert_iso2_raises :
    convert_iso2_to_iso3 pycountry_alpha2_sample (Cell.str "ZZ")
      = Except.error (convert_iso2_not_found_msg "ZZ") ∧
    (convert_iso2_to_iso3 pycountry_alpha2_sample (Cell.str "ZZ")).isOk = false := by
  constructor <;> rfl

/-- C4 amended: name resolution (`get_iso_code`) never raises — for every
canonical registry and every name it returns a value, and when the canonical
lookup raises `LookupError` the result is the override-table lookup, hence an
absent value when that also fails.  (Code resolution via
`convert_iso2_to_iso3`, by contrast, raises on an unknown non-NaN code.) -/
theorem C4_get_iso_code_never_raises (canonical : String → Except Unit String)
    (country_name : String) :
    (get_iso_code canonical country_name).isOk = true ∧
    (canonical country_name = .error () →
      get_iso_code canonical country_name
        = .ok (manual_mappings.lookup country_name)) := by
  unfold get_iso_code
  cases h : canonical country_name <;> simp [Except.isOk, Except.toBool]

/-- Witness for C4 at a canonical registry that always fails and a name absent
from the override table: the resolver returns an absent value, raising
nothing. -/
theorem C4_get_iso_code_never_raises_witness :
    (get_iso_code (fun _ => .error ()) "Atlantis").isOk = true ∧
    get_iso_code (fun _ => .error ()) "Atlantis" = .ok none := by
  refine ⟨(C4_get_iso_code_never_raises (fun _ => .error ()) "Atlantis").1, ?_⟩
  have h := (C4_get_iso_code_never_raises (fun _ => .error ()) "Atlantis").2 rfl
  rw [h]
  rfl

/-! ## The reconciliation merge: pandas left outer join

`world.merge(df, left_on=key, right_on="ISO Code", how="left")` pairs every
left (polygon) row with every right (record) row whose key cell equals the
polygon's key; a polygon with no matching record yields a single row whose
right-hand fields are all NaN.  The left key column is a non-null string
column in every script, so NaN record keys never match. -/

/-- Pandas left outer join, keys extracted by `key` (left, total) and `rkey`
(right, possibly absent). -/
def leftMerge {α β : Type} (key : α → String) (rkey : β → Option String)
    (P : List α) (R : List β) : List (α × Option β) :=
  P.flatMap fun p =>
    match R.filter (fun r => decide (rkey r = some (key p))) with
    | [] => [(p, none)]
    | ms => ms.map fun r => (p, some r)

/-- Helper: the join processes the polygon list row by row. -/
theorem leftMerge_cons {α β : Type} (key : α → String) (rkey : β → Option String)
    (p : α) (P : List α) (R : List β) :
    leftMerge key rkey (p :: P) R =
      (match R.filter (fun r => decide (rkey r = some (key p))) with
       | [] => [(p, none)]
       | ms => ms.map fun r => (p, some r)) ++ leftMerge key rkey P R := by
  simp [leftMerge]

/-! ## Scraped-openness pipeline (src/unnamed/part_000, first variant) -/

/-- One row of the scraped dataset after `fetch_country_data` and
`assign_colors`: `Country`, `Openness Score`, `URL`, `ISO Code` (absent when
`get_iso_code` failed), and the derived `color`. -/
structure ScrapedRecord where
  country : String
  score : Int
  url : Option String
  iso : Option String
  color : String
deriving DecidableEq, Repr

/-- One polygon of `ne_10m_admin_0_map_units` after `create_world`:
`ADM0_A3` (already stripped and uppercased), `NAME`, `SOVEREIGNT`, and the
derived `tolerance`.  Geometry itself is consumed only by the renderer and
carries no merge logic. -/
structure UnitPolygon where
  adm0_a3 : String
  name : String
  sovereignt : String
  tolerance : Option ℚ
deriving DecidableEq, Repr

/-- One output row of `prepare_geodataframe` after its `columns_to_keep`
selection: `Country`, `Openness Score`, `popup_html`, `Sovereign state`,
`color`, `tolerance` (geometry omitted as above). -/
structure OpenMapRow where
  country : String
  score : Int
  popup : String
  sovereign : String
  color : String
  tolerance : Option ℚ
deriving DecidableEq, Repr

/-- `df['ISO Code'] = df['ISO Code'].str.strip().str.upper()` on one record
(the pandas `.str` accessor propagates NaN). -/
def normalizeRecIso (r : ScrapedRecord) : ScrapedRecord :=
  { r with iso := r.iso.map fun c => pyUpper (pyStrip c) }

/-- The `<a href=...>Click through to ... register</a>` popup text. -/
def clickThroughAnchor (url country : String) : String :=
  "<a href=\"" ++ url ++ "\" target=\"_blank\">Click through to " ++ country
    ++ " register</a>"

/-- The fill steps of `prepare_geodataframe` on one merged row: missing color
becomes `#ffffff`, missing `Country` falls back to the shapefile `NAME`,
missing score becomes 0, and `URL` becomes a formatted link or the literal
`No link`. -/
def fillOpenRow (p : UnitPolygon) (m : Option ScrapedRecord) : OpenMapRow :=
  match m with
  | none =>
    { country := p.name, score := 0, popup := "No link",
      sovereign := p.sovereignt, color := "#ffffff", tolerance := p.tolerance }
  | some r =>
    { country := r.country, score := r.score,
      popup := match r.url with
        | some u => clickThroughAnchor u r.country
        | none => "No link",
      sovereign := p.sovereignt, color := r.color, tolerance := p.tolerance }

/-- `prepare_geodataframe` of the scraped-openness script: normalize the
record ISO codes in place, left-join the records onto the polygons on
`ADM0_A3`, fill defaults, and keep the rendering columns.  The pair's second
component is the record set as the caller observes it after the call (the
normalization mutates `df`). -/
def prepare_geodataframe (world : List UnitPolygon) (df : List ScrapedRecord) :
    List OpenMapRow × List ScrapedRecord :=
  let df2 := df.map normalizeRecIso
  let merged := leftMerge (fun p => p.adm0_a3) (fun r => r.iso) world df2
  (merged.map fun pr => fillOpenRow pr.1 pr.2, df2)

/-! ## Beneficial-ownership pipeline (countries_with_open_BO_registries.py) -/

/-- One row of `countries_with_open_registries_data.xlsx` after `load_data`:
`Country`, `ISO2`, the derived `ISO3`, `Register launched`, `Who can access`,
`Link`, plus the `color` column that `preprocess_data` writes into the frame
(absent before the call). -/
structure BORecord where
  country : Cell
  iso2 : Cell
  iso3 : Cell
  registerLaunched : Cell
  access : Cell
  link : Cell
  color : Option String
deriving DecidableEq, Repr

/-- One polygon of `world-administrative-boundaries` after `load_data`:
`iso3` (stripped) and `name`. -/
structure BOPolygon where
  iso3 : String
  name : String
deriving DecidableEq, Repr

/-- The merge key of a `BORecord`: its `ISO3` cell when it is a string
(a NaN key never matches the non-null polygon keys). -/
def boRecKey (r : BORecord) : Option String :=
  match r.iso3 with
  | .str s => some s
  | _ => none

/-- One output row of `preprocess_data`.  The frame also keeps the record's
join-key columns (`ISO2`, `ISO3`), which stay NaN on unmatched rows; the five
rendering fields are the attribute fields the map consumes. -/
structure BORow where
  color : Cell
  country : Cell
  registerLaunched : Cell
  access : Cell
  link : Cell
  iso2 : Cell
  iso3 : Cell
deriving DecidableEq, Repr

/-- `df['color'] = df['Who can access'].apply(get_color)` on one record. -/
def addColorColumn (r : BORecord) : BORecord :=
  { r with color := some (get_color r.access) }

/-- `str(int(x)) if isinstance(x, (float, int)) and not pd.isna(x) else x`. -/
def launchYearToStr : Cell → Cell
  | .num n => .str (toString n)
  | c => c

/-- `f'<a href="{x}" target="_blank">Open Register</a>' if pd.notna(x) else 'No link'`. -/
def formatRegisterLink : Cell → Cell
  | .nan => .str "No link"
  | c => .str ("<a href=\"" ++ pyStrOfCell c ++ "\" target=\"_blank\">Open Register</a>")

/-- The fill steps of `preprocess_data` (lines 47-55) on one merged row. -/
def fillBORow (p : BOPolygon) (m : Option BORecord) : BORow :=
  match m with
  | none =>
    { color := .str DEFAULT_COLOR,
      country := .str p.name,
      registerLaunched := .str "No register",
      access := .str "No register",
      link := .str "No link",
      iso2 := .nan, iso3 := .nan }
  | some r =>
    { color := match r.color with
        | some c => .str c
        | none => .str DEFAULT_COLOR,
      country := r.country.fillna (.str p.name),
      registerLaunched := launchYearToStr (r.registerLaunched.fillna (.str "No register")),
      access := r.access.fillna (.str "No register"),
      link := formatRegisterLink r.link,
      iso2 := r.iso2, iso3 := r.iso3 }

/-- `preprocess_data` of `countries_with_open_BO_registries.py`: write the
`color` column into `df`, left-join `df` onto the polygons on `iso3`/`ISO3`,
and fill defaults.  The pair's second component is the record set as the
caller observes it after the call (the color column is written in place). -/
def preprocess_data (df : List BORecord) (world : List BOPolygon) :
    List BORow × List BORecord :=
  let df2 := df.map addColorColumn
  let merged := leftMerge (fun p => p.iso3) boRecKey world df2
  (merged.map fun pr => fillBORow pr.1 pr.2, df2)

/-! ## Concrete sample data for counterexamples and witnesses -/

/-- The unique `FRA` polygon of the unit shapefile (France is large, so its
bucket tolerance is 0.1). -/
def fraPolygon : UnitPolygon :=
  { adm0_a3 := "FRA", name := "France", sovereignt := "France",
    tolerance := some (1/10) }

/-- A scraped record resolving to `FRA`. -/
def franceRecord : ScrapedRecord :=
  { country := "France", score := 80,
    url := some "http://registries.opencorporates.com/fr",
    iso := some "FRA", color := "#123456" }

/-- A second scraped record deliberately mapped to `FRA` by the override
table (an overseas territory). -/
def reunionRecord : ScrapedRecord :=
  { country := "Réunion", score := 40,
    url := some "http://registries.opencorporates.com/re",
    iso := some "FRA", color := "#abcdef" }

/-! ## Claim C1 (corrected) -/

/-- C1 counterexample: with the single `FRA` polygon and two records both
resolving to `FRA`, the left join returns 2 rows, not `len(P) = 1` — the
cardinality invariant fails when the record set has duplicate ISO codes. -/
theorem C1_counterexample_duplicate_keys_grow_merge :
    (leftMerge (fun p : UnitPolygon => p.adm0_a3) (fun r : ScrapedRecord => r.iso)
      [fraPolygon] [franceRecord, reunionRecord]).length = 2 ∧
    (leftMerge (fun p : UnitPolygon => p.adm0_a3) (fun r : ScrapedRecord => r.iso)
      [fraPolygon] [franceRecord, reunionRecord]).length ≠ 1 := by
  constructor <;> decide

/-- C1 amended: the left join has exactly `len(P)` rows provided no polygon
matches more than one record (in particular whenever the record ISO codes are
duplicate-free); with duplicate matching codes each extra match adds a row. -/
theorem C1_left_join_cardinality {α β : Type} (key : α → String)
    (rkey : β → Option String) (P : List α) (R : List β)
    (h : ∀ p ∈ P, (R.filter (fun r => decide (rkey r = some (key p)))).length ≤ 1) :
    (leftMerge key rkey P R).length = P.length := by
  induction P with
  | nil => rfl
  | cons p P ih =>
    rw [leftMerge_cons, List.length_append,
      ih (fun q hq => h q (List.mem_cons_of_mem _ hq)), List.length_cons]
    have hp := h p (List.mem_cons_self _ _)
    cases hfil : R.filter (fun r => decide (rkey r = some (key p))) with
    | nil => simp; omega
    | cons m ms =>
      rw [hfil] at hp
      simp only [List.length_cons] at hp
      have hms : ms = [] := by
        cases ms with
        | nil => rfl
        | cons a as => simp at hp
      subst hms
      simp
      omega

/-- Witness for C1: one `FRA` polygon and one matching record merge to one
row. -/
theorem C1_left_join_cardinality_witness :
    (leftMerge (fun p : UnitPolygon => p.adm0_a3) (fun r : ScrapedRecord => r.iso)
      [fraPolygon] [franceRecord]).length = 1 := by
  simpa using
    C1_left_join_cardinality (fun p : UnitPolygon => p.adm0_a3)
      (fun r : ScrapedRecord => r.iso) [fraPolygon] [franceRecord] (by decide)

/-! ## Claim C2 (corrected) -/

/-- C2 counterexample: two records both resolving to `FRA` merge onto the
single `FRA` polygon as TWO output rows (one per record), not as a single row
in which one of the duplicates wins. -/
theorem C2_counterexample_both_duplicates_kept :
    leftMerge (fun p : UnitPolygon => p.adm0_a3) (fun r : ScrapedRecord => r.iso)
      [fraPolygon] [franceRecord, reunionRecord]
      = [(fraPolygon, some franceRecord), (fraPolygon, some reunionRecord)] ∧
    (leftMerge (fun p : UnitPolygon => p.adm0_a3) (fun r : ScrapedRecord => r.iso)
      [fraPolygon] [franceRecord, reunionRecord]).length ≠ 1 := by
  exact ⟨rfl, by decide⟩

/-- C2 amended: merging two records that both resolve to one polygon's code
completes (the embedding is a total function) and is deterministic, but
instead of one record winning, the polygon row is duplicated — one output row
per matching record, in record-input order. -/
theorem C2_duplicate_keys_deterministic {α β : Type} (key : α → String)
    (rkey : β → Option String) (p : α) (r1 r2 : β)
    (h1 : rkey r1 = some (key p)) (h2 : rkey r2 = some (key p)) :
    leftMerge key rkey [p] [r1, r2] = [(p, some r1), (p, some r2)] := by
  simp [leftMerge, List.filter, h1, h2]

/-- Witness for C2 on the concrete `FRA` scenario. -/
theorem C2_duplicate_keys_deterministic_witness :
    leftMerge (fun p : UnitPolygon => p.adm0_a3) (fun r : ScrapedRecord => r.iso)
      [fraPolygon] [franceRecord, reunionRecord]
      = [(fraPolygon, some franceRecord), (fraPolygon, some reunionRecord)] :=
  C2_duplicate_keys_deterministic (fun p : UnitPolygon => p.adm0_a3)
    (fun r : ScrapedRecord => r.iso) fraPolygon franceRecord reunionRecord rfl rfl

/-! ## Claim C3 (confirmed) -/

/-- Helper: an unmatched polygon contributes its `(p, none)` row to the left
join. -/
theorem leftMerge_mem_unmatched {α β : Type} (key : α → String)
    (rkey : β → Option String) {P : List α} {R : List β} {p : α} (hp : p ∈ P)
    (hfil : R.filter (fun r => decide (rkey r = some (key p))) = []) :
    (p, none) ∈ leftMerge key rkey P R := by
  induction P with
  | nil => cases hp
  | cons q Q ih =>
    rw [leftMerge_cons, List.mem_append]
    rcases List.mem_cons.mp hp with rfl | hq
    · left
      rw [hfil]
      simp
    · right
      exact ih hq

/-- Helper: no field of a filled merge row is NaN, matched or not. -/
theorem fillBORow_no_nan (p : BOPolygon) (m : Option BORecord) :
    (fillBORow p m).color ≠ Cell.nan ∧ (fillBORow p m).country ≠ Cell.nan ∧
    (fillBORow p m).registerLaunched ≠ Cell.nan ∧
    (fillBORow p m).access ≠ Cell.nan ∧ (fillBORow p m).link ≠ Cell.nan := by
  rcases m with _ | r
  · simp [fillBORow]
  · obtain ⟨c, i2, i3, rl, ac, lk, col⟩ := r
    refine ⟨?_, ?_, ?_, ?_, ?_⟩ <;>
      rcases col with _ | _ <;> rcases c with _ | n | s <;> rcases rl with _ | n2 | s2 <;>
      rcases ac with _ | n3 | s3 <;> rcases lk with _ | n4 | s4 <;>
      simp [fillBORow, Cell.fillna, launchYearToStr, formatRegisterLink]

/-- C3: every attribute field of every merged row is non-null, and a polygon
with no matching record gets exactly the caller-specified defaults — the
`DEFAULT_COLOR` red for `color`, the literal `No link` for `Link`, the
shapefile name for `Country`, and `No register` for the launch and access
fields. -/
theorem C3_unmatched_polygon_defaults (df : List BORecord) (world : List BOPolygon) :
    (∀ row ∈ (preprocess_data df world).1,
      row.color ≠ Cell.nan ∧ row.country ≠ Cell.nan ∧
      row.registerLaunched ≠ Cell.nan ∧ row.access ≠ Cell.nan ∧
      row.link ≠ Cell.nan) ∧
    ∀ p ∈ world, (∀ r ∈ df, boRecKey r ≠ some p.iso3) →
      fillBORow p none ∈ (preprocess_data df world).1 ∧
      (fillBORow p none).color = Cell.str DEFAULT_COLOR ∧
      (fillBORow p none).link = Cell.str "No link" ∧
      (fillBORow p none).country = Cell.str p.name ∧
      (fillBORow p none).registerLaunched = Cell.str "No register" ∧
      (fillBORow p none).access = Cell.str "No register" := by
  constructor
  · intro row hrow
    simp only [preprocess_data, List.mem_map] at hrow
    obtain ⟨pr, _, rfl⟩ := hrow
    exact fillBORow_no_nan pr.1 pr.2
  · intro p hp hno
    have hfil : (df.map addColorColumn).filter
        (fun r => decide (boRecKey r = some p.iso3)) = [] := by
      rw [List.filter_eq_nil_iff]
      intro r hr
      obtain ⟨r0, hr0, rfl⟩ := List.mem_map.mp hr
      have : boRecKey (addColorColumn r0) = boRecKey r0 := rfl
      simp [this, hno r0 hr0]
    exact ⟨List.mem_map.mpr ⟨(p, none),
      leftMerge_mem_unmatched (fun q : BOPolygon => q.iso3) boRecKey hp hfil, rfl⟩,
      rfl, rfl, rfl, rfl, rfl⟩

/-- A polygon with no record in the sample data. -/
def deuPolygon : BOPolygon := { iso3 := "DEU", name := "Germany" }

/-- Witness for C3: with an empty record set, the `DEU` polygon's merged row
is present and carries the default color and the `No link` marker. -/
theorem C3_unmatched_polygon_defaults_witness :
    fillBORow deuPolygon none ∈ (preprocess_data [] [deuPolygon]).1 ∧
    (fillBORow deuPolygon none).color = Cell.str DEFAULT_COLOR ∧
    (fillBORow deuPolygon none).link = Cell.str "No link" := by
  obtain ⟨h1, h2, h3, _⟩ :=
    (C3_unmatched_polygon_defaults [] [deuPolygon]).2 deuPolygon (by simp) (by simp)
  exact ⟨h1, h2, h3⟩

/-! ## Claim C9 (corrected) -/

/-- A record whose ISO cell carries surrounding whitespace and lowercase. -/
def paddedIsoRecord : ScrapedRecord :=
  { country := "France", score := 80, url := some "u",
    iso := some " fra ", color := "#123456" }

/-- C9 counterexample: after `prepare_geodataframe`, the caller's record set
is no longer the one passed in — the record's `ISO Code` field has been
normalized in place (` fra ` became `FRA`), so the merge pipeline does modify
its record-set input. -/
theorem C9_counterexample_records_mutated :
    (prepare_geodataframe [] [paddedIsoRecord]).2 ≠ [paddedIsoRecord] := by
  decide

/-- C9 amended: the record set that survives the merge pipeline differs from
the input only as follows — `prepare_geodataframe` rewrites each record's
`ISO Code` to its stripped, uppercased form (every other field is preserved),
and `preprocess_data` writes the derived `color` column (every other field is
preserved); the join itself copies rows and modifies nothing else. -/
theorem C9_merge_record_frame :
    (∀ (world : List UnitPolygon) (df : List ScrapedRecord),
      (prepare_geodataframe world df).2.length = df.length ∧
      ∀ i : Nat,
        ((prepare_geodataframe world df).2[i]?).map ScrapedRecord.country
          = (df[i]?).map ScrapedRecord.country ∧
        ((prepare_geodataframe world df).2[i]?).map ScrapedRecord.score
          = (df[i]?).map ScrapedRecord.score ∧
        ((prepare_geodataframe world df).2[i]?).map ScrapedRecord.url
          = (df[i]?).map ScrapedRecord.url ∧
        ((prepare_geodataframe world df).2[i]?).map ScrapedRecord.color
          = (df[i]?).map ScrapedRecord.color ∧
        ((prepare_geodataframe world df).2[i]?).map ScrapedRecord.iso
          = (df[i]?).map (fun r => r.iso.map fun c => pyUpper (pyStrip c))) ∧
    (∀ (df : List BORecord) (world : List BOPolygon),
      (preprocess_data df world).2.length = df.length ∧
      ∀ i : Nat,
        ((preprocess_data df world).2[i]?).map BORecord.country
          = (df[i]?).map BORecord.country ∧
        ((preprocess_data df world).2[i]?).map BORecord.iso2
          = (df[i]?).map BORecord.iso2 ∧
        ((preprocess_data df world).2[i]?).map BORecord.iso3
          = (df[i]?).map BORecord.iso3 ∧
        ((preprocess_data df world).2[i]?).map BORecord.registerLaunched
          = (df[i]?).map BORecord.registerLaunched ∧
        ((preprocess_data df world).2[i]?).map BORecord.access
          = (df[i]?).map BORecord.access ∧
        ((preprocess_data df world).2[i]?).map BORecord.link
          = (df[i]?).map BORecord.link ∧
        ((preprocess_data df world).2[i]?).map BORecord.color
          = (df[i]?).map fun r => some (get_color r.access)) := by
  constructor
  · intro world df
    refine ⟨by simp [prepare_geodataframe], fun i => ?_⟩
    simp only [prepare_geodataframe, List.getElem?_map]
    cases df[i]? with
    | none => simp
    | some r => simp [normalizeRecIso]
  · intro df world
    refine ⟨by simp [preprocess_data], fun i => ?_⟩
    simp only [preprocess_data, List.getElem?_map]
    cases df[i]? with
    | none => simp
    | some r => simp [addColorColumn]

/-! ## Merge verifier (map_plotting_functions.py lines 135-172) -/

/-- Code-point lexicographic string comparison, as Python compares strings
for `sorted`. -/
def charListLe : List Char → List Char → Bool
  | [], _ => true
  | _ :: _, [] => false
  | a :: as, b :: bs =>
    if a.toNat < b.toNat then true
    else if b.toNat < a.toNat then false
    else charListLe as bs

/-- Python `a <= b` on strings. -/
def pyStrLe (a b : String) : Bool := charListLe a.toList b.toList

/-- Helper: lexicographic comparison is total. -/
theorem charListLe_total (l1 l2 : List Char) :
    charListLe l1 l2 = true ∨ charListLe l2 l1 = true := by
  induction l1 generalizing l2 with
  | nil => left; rfl
  | cons a as ih =>
    cases l2 with
    | nil => right; rfl
    | cons b bs =>
      by_cases hab : a.toNat < b.toNat
      · left; simp [charListLe, hab]
      · by_cases hba : b.toNat < a.toNat
        · right; simp [charListLe, hba]
        · rcases ih bs with h | h
          · left; simp [charListLe, hab, hba, h]
          · right; simp [charListLe, hab, hba, h]

/-- Helper: lexicographic comparison is transitive. -/
theorem charListLe_trans {l1 l2 l3 : List Char} (h12 : charListLe l1 l2 = true)
    (h23 : charListLe l2 l3 = true) : charListLe l1 l3 = true := by
  induction l1 generalizing l2 l3 with
  | nil => rfl
  | cons a as ih =>
    cases l2 with
    | nil => simp [charListLe] at h12
    | cons b bs =>
      cases l3 with
      | nil => simp [charListLe] at h23
      | cons c cs =>
        simp only [charListLe] at h12 h23 ⊢
        by_cases h1 : a.toNat < b.toNat
        · by_cases h2 : b.toNat < c.toNat
          · have hac : a.toNat < c.toNat := by omega
            simp [hac]
          · by_cases h3 : c.toNat < b.toNat
            · rw [if_neg h2, if_pos h3] at h23
              exact absurd h23 (by simp)
            · have hac : a.toNat < c.toNat := by omega
              simp [hac]
        · by_cases h3 : b.toNat < a.toNat
          · rw [if_neg h1, if_pos h3] at h12
            exact absurd h12 (by simp)
          · rw [if_neg h1, if_neg h3] at h12
            by_cases h2 : b.toNat < c.toNat
            · have hac : a.toNat < c.toNat := by omega
              simp [hac]
            · by_cases h4 : c.toNat < b.toNat
              · rw [if_neg h2, if_pos h4] at h23
                exact absurd h23 (by simp)
              · rw [if_neg h2, if_neg h4] at h23
                have h5 : ¬ a.toNat < c.toNat := by omega
                have h6 : ¬ c.toNat < a.toNat := by omega
                rw [if_neg h5, if_neg h6]
                exact ih h12 h23

/-- Helper: totality at the string level. -/
theorem pyStrLe_total (a b : String) : pyStrLe a b = true ∨ pyStrLe b a = true :=
  charListLe_total a.toList b.toList

/-- Helper: transitivity at the string level. -/
theorem pyStrLe_trans {a b c : String} (h1 : pyStrLe a b = true)
    (h2 : pyStrLe b c = true) : pyStrLe a c = true :=
  charListLe_trans h1 h2

/-- One insertion step of the sort behind Python `sorted`. -/
def insertStr (a : String) : List String → List String
  | [] => [a]
  | b :: bs => if pyStrLe a b then a :: b :: bs else b :: insertStr a bs

/-- Python `sorted` on a string list (insertion sort; on strings any
comparison sort has the same output, since equal keys are identical). -/
def pySorted : List String → List String
  | [] => []
  | a :: as => insertStr a (pySorted as)

/-- Helper: insertion preserves membership. -/
theorem mem_insertStr (x a : String) (l : List String) :
    x ∈ insertStr a l ↔ x = a ∨ x ∈ l := by
  induction l with
  | nil => simp [insertStr]
  | cons b bs ih =>
    simp only [insertStr]
    split_ifs
    · simp
    · rw [List.mem_cons, ih, List.mem_cons]
      tauto

/-- Helper: `pySorted` preserves membership. -/
theorem mem_pySorted (x : String) (l : List String) :
    x ∈ pySorted l ↔ x ∈ l := by
  induction l with
  | nil => simp [pySorted]
  | cons a as ih => simp [pySorted, mem_insertStr, ih]

/-- Helper: inserting into a sorted list keeps it sorted. -/
theorem pairwise_insertStr (a : String) (l : List String)
    (h : l.Pairwise fun x y => pyStrLe x y = true) :
    (insertStr a l).Pairwise fun x y => pyStrLe x y = true := by
  induction l with
  | nil => simp [insertStr]
  | cons b bs ih =>
    rcases List.pairwise_cons.mp h with ⟨hb, hbs⟩
    simp only [insertStr]
    split_ifs with hab
    · refine List.pairwise_cons.mpr ⟨?_, h⟩
      intro y hy
      rcases List.mem_cons.mp hy with rfl | hy2
      · exact hab
      · exact pyStrLe_trans hab (hb y hy2)
    · refine List.pairwise_cons.mpr ⟨?_, ih hbs⟩
      intro y hy
      rcases (mem_insertStr y a bs).mp hy with h0 | hy2
      · rw [h0]
        rcases pyStrLe_total a b with h1 | h1
        · exact absurd h1 hab
        · exact h1
      · exact hb y hy2

/-- Helper: `pySorted` sorts. -/
theorem sorted_pySorted (l : List String) :
    (pySorted l).Pairwise fun x y => pyStrLe x y = true := by
  induction l with
  | nil => simp [pySorted]
  | cons a as ih => exact pairwise_insertStr a (pySorted as) ih

/-- The view of one data row that `verify_country_merge` reads: the
`data_country_column` display name and the `data_iso_column` code (absent when
the ISO resolver failed). -/
structure VRow where
  name : String
  iso : Option String
deriving DecidableEq, Repr

/-- Auxiliary for `dedupFirst`: keep elements not seen before, threading the
set of values already emitted. -/
def dedupFirstAux (seen : List String) : List String → List String
  | [] => []
  | x :: xs =>
    if x ∈ seen then dedupFirstAux seen xs
    else x :: dedupFirstAux (x :: seen) xs

/-- Pandas `Series.unique()`: deduplicate keeping the first occurrence, in
order of appearance. -/
def dedupFirst (l : List String) : List String := dedupFirstAux [] l

/-- Helper: membership in the deduplication pass. -/
theorem mem_dedupFirstAux (a : String) (l : List String) :
    ∀ seen : List String, (a ∈ dedupFirstAux seen l ↔ a ∈ l ∧ a ∉ seen) := by
  induction l with
  | nil => intro seen; simp [dedupFirstAux]
  | cons x xs ih =>
    intro seen
    simp only [dedupFirstAux]
    split_ifs with hx
    · rw [ih seen]
      constructor
      · rintro ⟨h1, h2⟩
        exact ⟨List.mem_cons_of_mem _ h1, h2⟩
      · rintro ⟨h1, h2⟩
        rcases List.mem_cons.mp h1 with rfl | h3
        · exact absurd hx h2
        · exact ⟨h3, h2⟩
    · rw [List.mem_cons, ih (x :: seen)]
      constructor
      · rintro (rfl | ⟨h1, h2⟩)
        · exact ⟨List.mem_cons_self _ _, hx⟩
        · exact ⟨List.mem_cons_of_mem _ h1,
            fun hs => h2 (List.mem_cons_of_mem _ hs)⟩
      · rintro ⟨h1, h2⟩
        by_cases hax : a = x
        · exact Or.inl hax
        · rcases List.mem_cons.mp h1 with h0 | h3
          · exact absurd h0 hax
          · refine Or.inr ⟨h3, fun hs => ?_⟩
            rcases List.mem_cons.mp hs with h4 | h4
            · exact hax h4
            · exact h2 h4

/-- Helper: `unique()` preserves membership. -/
theorem mem_dedupFirst (a : String) (l : List String) :
    a ∈ dedupFirst l ↔ a ∈ l := by
  rw [dedupFirst, mem_dedupFirstAux]
  simp

/-- `verify_country_merge` of `map_plotting_functions.py`, returning the
sorted name list its error message is built from (empty when nothing is
missing and no message is printed).  First list: unique names of rows with a
null ISO code.  Second list: unique names of rows whose uppercased code lies
in the set difference `{data codes} - {shapefile codes}` (`isin` on a null
code is false).  The two lists are concatenated and sorted; the function only
prints, never raises, and never touches the merged frame. -/
def verify_country_merge (data : List VRow) (world_iso : List String) :
    List String :=
  let missing_iso_countries :=
    dedupFirst ((data.filter fun r => r.iso.isNone).map VRow.name)
  let data_iso_codes := (data.filterMap VRow.iso).map pyUpper
  let shapefile_iso_codes := world_iso.map pyUpper
  let second :=
    dedupFirst ((data.filter fun r =>
      match r.iso with
      | some c => decide (pyUpper c ∈ data_iso_codes)
          && !(decide (pyUpper c ∈ shapefile_iso_codes))
      | none => false).map VRow.name)
  pySorted (missing_iso_countries ++ second)

/-! ## Claim C5 (corrected) -/

/-- C5 counterexample: one record named `X` with a null ISO code and another
record also named `X` with the orphan code `QQQ` produce the report
`["X", "X"]` — the union of the two name lists is NOT deduplicated across
lists, so the report is not duplicate-free. -/
theorem C5_counterexample_report_not_deduplicated :
    verify_country_merge [⟨"X", none⟩, ⟨"X", some "QQQ"⟩] [] = ["X", "X"] ∧
    ¬ (verify_country_merge [⟨"X", none⟩, ⟨"X", some "QQQ"⟩] []).Nodup := by
  constructor <;> decide

/-- C5 amended: the verifier's report is sorted lexicographically and contains
exactly the names of records whose ISO code is absent together with the names
of records whose resolved code has no polygon (each of the two lists is
deduplicated individually, but a name appearing in both lists appears twice);
the verifier is a total function separate from the merge, so it never raises,
blocks the merge, or aborts the run. -/
theorem C5_verifier_report_sorted_and_complete (data : List VRow)
    (world_iso : List String) :
    (verify_country_merge data world_iso).Pairwise (fun a b => pyStrLe a b = true) ∧
    ∀ n : String,
      n ∈ verify_country_merge data world_iso ↔
        ((∃ r ∈ data, r.iso = none ∧ r.name = n) ∨
         (∃ r ∈ data, ∃ c : String, r.iso = some c ∧
            pyUpper c ∉ world_iso.map pyUpper ∧ r.name = n)) := by
  constructor
  · exact sorted_pySorted _
  · intro n
    rw [verify_country_merge]
    simp only [mem_pySorted, List.mem_append, mem_dedupFirst, List.mem_map,
      List.mem_filter]
    constructor
    · rintro (⟨r, ⟨hr, hnone⟩, rfl⟩ | ⟨r, ⟨hr, hcond⟩, rfl⟩)
      · exact Or.inl ⟨r, hr, Option.isNone_iff_eq_none.mp hnone, rfl⟩
      · rcases hiso : r.iso with _ | c
        · rw [hiso] at hcond
          simp at hcond
        · rw [hiso] at hcond
          simp at hcond
          refine Or.inr ⟨r, hr, c, hiso, ?_, rfl⟩
          simpa using hcond.2
    · rintro (⟨r, hr, hnone, rfl⟩ | ⟨r, hr, c, hsome, hnot, rfl⟩)
      · exact Or.inl ⟨r, ⟨hr, by simp [hnone]⟩, rfl⟩
      · refine Or.inr ⟨r, ⟨hr, ?_⟩, rfl⟩
        rw [hsome]
        simp only [Bool.and_eq_true, decide_eq_true_eq, Bool.not_eq_eq_eq_not,
          Bool.not_true, decide_eq_false_iff_not]
        exact ⟨⟨c, List.mem_filterMap.mpr ⟨r, hr, hsome⟩, rfl⟩, hnot⟩

/-! ## ISO key normalization of the three geometry loads -/

/-- `world[SHAPEFILE_ISO_KEY].str.strip().str.upper()` —
`create_world`, map_plotting_functions.py line 108. -/
def create_world_iso_normalize (s : String) : String := pyUpper (pyStrip s)

/-- `world['iso3'].str.strip()` — `load_data`,
countries_with_open_BO_registries.py line 41 (no uppercasing). -/
def load_data_iso_normalize (s : String) : String := pyStrip s

/-- `world['ISO_A2'].str.strip()` — countries_with_open_registries_html.py
line 22 (no uppercasing). -/
def html_script_iso_normalize (s : String) : String := pyStrip s

/-- Helper: uppercasing a character never yields a lowercase character. -/
theorem pyIsLower_pyUpperChar (c : Char) : pyIsLower (pyUpperChar c) = false := by
  unfold pyUpperChar
  split_ifs with h
  · simp only [Bool.and_eq_true, decide_eq_true_eq] at h
    obtain ⟨h1, h2⟩ := h
    have h3 : 65 ≤ c.toNat - 32 := by omega
    have h4 : c.toNat - 32 ≤ 90 := by omega
    generalize c.toNat - 32 = n at h3 h4
    interval_cases n <;> decide
  · rw [Bool.not_eq_true] at h
    exact h

/-- Helper: uppercasing preserves whitespace-ness. -/
theorem isSpaceChar_pyUpperChar (c : Char) :
    isSpaceChar (pyUpperChar c) = isSpaceChar c := by
  unfold pyUpperChar
  split_ifs with h
  · simp only [Bool.and_eq_true, decide_eq_true_eq] at h
    obtain ⟨h1, h2⟩ := h
    have hL : isSpaceChar (Char.ofNat (c.toNat - 32)) = false := by
      have h3 : 65 ≤ c.toNat - 32 := by omega
      have h4 : c.toNat - 32 ≤ 90 := by omega
      generalize c.toNat - 32 = n at h3 h4
      interval_cases n <;> decide
    have hR : isSpaceChar c = false := by
      simp [isSpaceChar]
      omega
    rw [hL, hR]
  · rfl

/-- Helper: the head surviving a `dropWhile` fails the predicate. -/
theorem head_dropWhile_eq_some {α : Type} {p : α → Bool} {l : List α} {c : α}
    (h : (l.dropWhile p).head? = some c) : p c = false := by
  have h2 := List.head?_dropWhile_not p l
  rw [h] at h2
  exact h2

/-- Helper: a nonempty suffix has the same last element. -/
theorem getLast_of_suffix {α : Type} {l1 l2 : List α} (h : l1 <:+ l2) {c : α}
    (hc : l1.getLast? = some c) : l2.getLast? = some c := by
  obtain ⟨t, rfl⟩ := h
  rw [List.getLast?_append, hc]
  rfl

/-- Helper: the first character of a stripped string is not whitespace. -/
theorem pyStripL_head {l : List Char} {c : Char}
    (h : (pyStripL l).head? = some c) : isSpaceChar c = false := by
  unfold pyStripL at h
  rw [List.head?_reverse] at h
  have h2 := getLast_of_suffix (List.dropWhile_suffix _) h
  rw [List.getLast?_reverse] at h2
  exact head_dropWhile_eq_some h2

/-- Helper: the last character of a stripped string is not whitespace. -/
theorem pyStripL_getLast {l : List Char} {c : Char}
    (h : (pyStripL l).getLast? = some c) : isSpaceChar c = false := by
  unfold pyStripL at h
  rw [List.getLast?_reverse] at h
  exact head_dropWhile_eq_some h

/-- Helper: stripping only removes characters. -/
theorem pyStripL_sublist (l : List Char) : (pyStripL l).Sublist l := by
  unfold pyStripL
  have h2 : (List.dropWhile isSpaceChar ((l.dropWhile isSpaceChar).reverse)).reverse.Sublist
      ((l.dropWhile isSpaceChar).reverse).reverse :=
    (List.dropWhile_sublist _).reverse
  rw [List.reverse_reverse] at h2
  exact h2.trans (List.dropWhile_sublist _)

/-! ## Claim C8 (corrected) -/

/-- C8 counterexample: `load_data` normalizes the polygon ISO key ` fra ` to
`fra` — stripped but NOT uppercased — while strip-and-uppercase would give
`FRA`; so not every geometry load uppercases its ISO key column. -/
theorem C8_counterexample_load_data_only_strips :
    load_data_iso_normalize " fra " = "fra" ∧
    load_data_iso_normalize " fra " ≠ pyUpper (pyStrip " fra ") := by
  constructor <;> decide

/-- C8 amended: `create_world` both strips and uppercases its ISO key column
(the result contains no lowercase ASCII letter and neither starts nor ends
with whitespace), while the `load_data` and html-script loads only strip —
their result is a contiguous substring of the input with every character
unchanged. -/
theorem C8_iso_key_normalization (s : String) :
    ((create_world_iso_normalize s).toList.all fun c => !(pyIsLower c)) = true ∧
    (∀ c : Char, (create_world_iso_normalize s).toList.head? = some c →
      isSpaceChar c = false) ∧
    (∀ c : Char, (create_world_iso_normalize s).toList.getLast? = some c →
      isSpaceChar c = false) ∧
    (load_data_iso_normalize s).toList.Sublist s.toList ∧
    (html_script_iso_normalize s).toList.Sublist s.toList := by
  have heq : (create_world_iso_normalize s).toList
      = (pyStripL s.toList).map pyUpperChar := rfl
  refine ⟨?_, ?_, ?_, pyStripL_sublist s.toList, pyStripL_sublist s.toList⟩
  · rw [heq, List.all_eq_true]
    intro c hc
    obtain ⟨c0, _, rfl⟩ := List.mem_map.mp hc
    simp [pyIsLower_pyUpperChar]
  · intro c hc
    rw [heq, List.head?_map] at hc
    cases h0 : (pyStripL s.toList).head? with
    | none => rw [h0] at hc; simp at hc
    | some c0 =>
      rw [h0] at hc
      obtain rfl : pyUpperChar c0 = c := by simpa using hc
      rw [isSpaceChar_pyUpperChar]
      exact pyStripL_head h0
  · intro c hc
    rw [heq, List.getLast?_map] at hc
    cases h0 : (pyStripL s.toList).getLast? with
    | none => rw [h0] at hc; simp at hc
    | some c0 =>
      rw [h0] at hc
      obtain rfl : pyUpperChar c0 = c := by simpa using hc
      rw [isSpaceChar_pyUpperChar]
      exact pyStripL_getLast h0

/-- Witness for C8 at the input ` fra `: the `create_world` normalization is
lowercase-free and its first character (`F`, code point 70) is not
whitespace. -/
theorem C8_iso_key_normalization_witness :
    ((create_world_iso_normalize " fra ").toList.all fun c => !(pyIsLower c)) = true ∧
    isSpaceChar (Char.ofNat 70) = false :=
  ⟨(C8_iso_key_normalization " fra ").1,
   (C8_iso_key_normalization " fra ").2.1 (Char.ofNat 70) (by decide)⟩
